import Mathlib

/-!
Shallow embedding of the upload-trigger-poll orchestration core of
`src/app.py` (a Flask application that stages an image in a source S3
bucket, triggers a remote Lambda resize through an API gateway, and
polls a target bucket for the resized object).

The embedding models the two HTTP handlers that contain the
orchestration logic:

* `upload_image`  (the orchestrator `submit`, src/app.py lines 117-157)
* `check_resized_image`  (the completion poller `check`, lines 159-177)

External effects (S3 puts, the fixed sleep, the trigger POST) are
recorded in an explicit effect trace; outcomes of the external calls
(put failure, trigger response) are inputs of the model.
-/

/-- Embeds `file.filename.rsplit('.', 1)[-1]` from src/app.py line 125:
the substring after the last `.` of the filename, or the whole filename
when it contains no `.` (Python `rsplit` with maxsplit 1, last element). -/
def fileExtension (filename : String) : String :=
  String.mk ((filename.data.reverse.takeWhile (fun c => c ≠ '.')).reverse)

/-- Embeds src/app.py lines 124-126: `source_key = f"{timestamp}.{extension}"`,
where `timestamp` is `datetime.now().strftime("%Y%m%d%H%M%S")` (an input of
the model, second resolution) and `extension` is `fileExtension filename`. -/
def mkSourceKey (timestamp filename : String) : String :=
  timestamp ++ "." ++ fileExtension filename

/-- Embeds src/app.py line 150: `resized_key = f"resized-{source_key}"`. -/
def derive_target_key (source_key : String) : String :=
  "resized-" ++ source_key

/-- Embeds Python `s.replace("resized-", "")` (src/app.py line 163) on the
character list of `s`: a left-to-right scan removing every non-overlapping
occurrence of the pattern `resized-`, exactly as Python `str.replace`
replaces all occurrences. -/
def removeResizedL : List Char → List Char
  | 'r' :: 'e' :: 's' :: 'i' :: 'z' :: 'e' :: 'd' :: '-' :: rest => removeResizedL rest
  | c :: rest => c :: removeResizedL rest
  | [] => []

/-- Decides whether the character list contains an occurrence of the
substring `resized-` (the occurrences Python `replace` would rewrite). -/
def hasResizedL : List Char → Bool
  | 'r' :: 'e' :: 's' :: 'i' :: 'z' :: 'e' :: 'd' :: '-' :: _ => true
  | _ :: rest => hasResizedL rest
  | [] => false

/-- Embeds src/app.py line 163: `source_key = resized_key.replace("resized-", "")`. -/
def derive_source_key (resized_key : String) : String :=
  String.mk (removeResizedL resized_key.data)

/-- The environment configuration read at module load (src/app.py lines
18-20): names of the source and target buckets and the API gateway URL. -/
structure Config where
  SOURCE_BUCKET : String
  TARGET_BUCKET : String
  API_GATEWAY_URL : String
deriving DecidableEq

/-- The S3 object store, as observed through this application: each
(bucket, key) pair holds at most one byte payload (bytes as naturals). -/
def Store : Type := String → String → Option (List Nat)

/-- One external call made by the upload handler, in program order:
`s3.upload_fileobj` (line 130), `time.sleep` (line 132), and the
`requests.post` to the API gateway (lines 137-143). -/
inductive Effect where
  | put (bucket key : String) (payload : List Nat)
  | sleep (seconds : Nat)
  | trigger (url source_key : String) (width height : Int)
      (source_bucket target_bucket : String)
deriving DecidableEq

/-- Outcome of the `requests.post` trigger call: either an HTTP response
with some status code, or the request never reaches the endpoint and
`requests` raises (network failure). -/
inductive TriggerOutcome where
  | response (status : Nat)
  | transportFailure
deriving DecidableEq

/-- Per-request external circumstances of one call to the upload handler:
the wall-clock timestamp string produced by `datetime.now().strftime`
(line 124), whether `s3.upload_fileobj` raises, and the trigger outcome. -/
structure UploadEnv where
  timestamp : String
  putFails : Bool
  trigger : TriggerOutcome
deriving DecidableEq

/-- The response of the upload handler: the 500 of the upload except
branch (line 134), the 500 of the non-200 trigger branch (line 146), an
exception escaping the handler (the `requests.post` call is not inside
any try), or the 200 JSON with the two URLs and the resized key
(lines 153-157). -/
inductive UploadResult where
  | uploadFailed
  | resizeFailed
  | unhandledFault
  | ok (original_url resized_url resized_key : String)
deriving DecidableEq

/-- Embeds the upload handler `upload_image` (src/app.py lines 117-157).
Returns the handler's response, the trace of external calls it made, and
the store after the request. The handler performs no validation of
`width` or `height`; on a successful put it sleeps 5 seconds (line 132,
comment: the time where the lambda completes its task) and then posts
the trigger request. -/
def upload_image (cfg : Config) (st : Store) (env : UploadEnv)
    (payload : List Nat) (filename : String) (width height : Int) :
    UploadResult × List Effect × Store :=
  let source_key := mkSourceKey env.timestamp filename
  if env.putFails then
    (UploadResult.uploadFailed, [Effect.put cfg.SOURCE_BUCKET source_key payload], st)
  else
    let st2 : Store := fun b k =>
      if b = cfg.SOURCE_BUCKET ∧ k = source_key then some payload else st b k
    let tr : List Effect :=
      [Effect.put cfg.SOURCE_BUCKET source_key payload,
       Effect.sleep 5,
       Effect.trigger cfg.API_GATEWAY_URL source_key width height
         cfg.SOURCE_BUCKET cfg.TARGET_BUCKET]
    match env.trigger with
    | TriggerOutcome.transportFailure => (UploadResult.unhandledFault, tr, st2)
    | TriggerOutcome.response status =>
      if status ≠ 200 then
        (UploadResult.resizeFailed, tr, st2)
      else
        (UploadResult.ok
          ("https://" ++ cfg.SOURCE_BUCKET ++ ".s3.amazonaws.com/" ++ source_key)
          ("https://" ++ cfg.TARGET_BUCKET ++ ".s3.amazonaws.com/" ++ derive_target_key source_key)
          (derive_target_key source_key), tr, st2)

/-- Kinds of `botocore` `ClientError` a `head_object` call can raise; the
`except s3.exceptions.ClientError` clause at line 176 catches every kind,
the 404 not-found and a 403 permission denial alike. -/
inductive HeadErr where
  | notFound
  | accessDenied
deriving DecidableEq

/-- Outcome of one `s3.head_object` call: success with the
`ContentLength`, a `ClientError` of some kind, or an exception that is
not a `ClientError` (e.g. a connection failure), which the except clause
at line 176 does not catch. -/
inductive HeadOutcome where
  | ok (contentLength : Nat)
  | clientError (e : HeadErr)
  | raiseOther
deriving DecidableEq

/-- The behavior of `s3.head_object` during one request: the outcome it
yields for each (bucket, key) it is called on. -/
def HeadFn : Type := String → String → HeadOutcome

/-- The response of the completion-check handler: the JSON
exists-true with both sizes (line 175), the JSON exists-false
(line 177), or an exception escaping the handler. -/
inductive CheckResult where
  | yes (original_size resized_size : Nat)
  | no
  | fault
deriving DecidableEq

/-- Embeds the poll handler `check_resized_image` (src/app.py lines
159-177). It heads the target key in the target bucket, then the derived
source key in the source bucket, then the target key again, and answers
exists-true with both content lengths; any `ClientError` from any of the
three heads lands in the except clause and answers exists-false. -/
def check_resized_image (cfg : Config) (hd : HeadFn) (resized_key : String) :
    CheckResult :=
  let source_key := derive_source_key resized_key
  match hd cfg.TARGET_BUCKET resized_key with
  | HeadOutcome.raiseOther => CheckResult.fault
  | HeadOutcome.clientError _ => CheckResult.no
  | HeadOutcome.ok _ =>
    match hd cfg.SOURCE_BUCKET source_key with
    | HeadOutcome.raiseOther => CheckResult.fault
    | HeadOutcome.clientError _ => CheckResult.no
    | HeadOutcome.ok original_size =>
      match hd cfg.TARGET_BUCKET resized_key with
      | HeadOutcome.raiseOther => CheckResult.fault
      | HeadOutcome.clientError _ => CheckResult.no
      | HeadOutcome.ok resized_size => CheckResult.yes original_size resized_size

/-- The `head_object` behavior induced by a store with no transport
faults: the content length of the stored payload when the object exists,
the 404 `ClientError` when it does not. -/
def storeHead (st : Store) : HeadFn := fun b k =>
  match st b k with
  | some payload => HeadOutcome.ok payload.length
  | none => HeadOutcome.clientError HeadErr.notFound

/-- A concrete configuration used by the witness instances. -/
def cfg0 : Config := { SOURCE_BUCKET := "src-bkt", TARGET_BUCKET := "tgt-bkt",
                       API_GATEWAY_URL := "https://api.example.com/resize" }

/-- The empty store: no object in any bucket. -/
def emptyStore : Store := fun _ _ => none

/-- A concrete per-request environment: fixed timestamp, successful put,
trigger answered with HTTP 200. -/
def env200 : UploadEnv :=
  { timestamp := "20240101120000", putFails := false,
    trigger := TriggerOutcome.response 200 }

/-- A concrete per-request environment whose trigger call never reaches
the endpoint. -/
def envTransportFail : UploadEnv :=
  { timestamp := "20240101120000", putFails := false,
    trigger := TriggerOutcome.transportFailure }

/-- A concrete per-request environment whose trigger call is answered
with HTTP 500. -/
def env500 : UploadEnv :=
  { timestamp := "20240101120000", putFails := false,
    trigger := TriggerOutcome.response 500 }

/-- A concrete store holding a 3-byte source object at
`20240101120000.png` and a 1-byte target object at
`resized-20240101120000.png`. -/
def storeBoth : Store := fun b k =>
  if b = "src-bkt" ∧ k = "20240101120000.png" then some [0, 1, 2]
  else if b = "tgt-bkt" ∧ k = "resized-20240101120000.png" then some [7]
  else none

/-- A concrete store holding only the 3-byte source object (the resized
object has not appeared yet). -/
def storeSrcOnly : Store := fun b k =>
  if b = "src-bkt" ∧ k = "20240101120000.png" then some [0, 1, 2]
  else none

/-- A head behavior that denies every head call with a permission
`ClientError` (a transport or permission failure distinct from 404). -/
def headDenied : HeadFn := fun _ _ => HeadOutcome.clientError HeadErr.accessDenied

/-- A head behavior where the target object exists with content length 1
but every head on the source bucket is denied with a permission error. -/
def headTargetOnlySrcDenied : HeadFn := fun b _ =>
  if b = "tgt-bkt" then HeadOutcome.ok 1
  else HeadOutcome.clientError HeadErr.accessDenied

/-! ### Helper lemmas on the embedded handlers -/

/-- When the put succeeds, the trace of external calls of the upload
handler is exactly: the put, the fixed 5-second sleep, the trigger post
(the trigger outcome only changes the response, never the trace). -/
theorem upload_image_trace (cfg : Config) (st : Store) (env : UploadEnv)
    (payload : List Nat) (filename : String) (width height : Int)
    (hput : env.putFails = false) :
    (upload_image cfg st env payload filename width height).2.1 =
      [Effect.put cfg.SOURCE_BUCKET (mkSourceKey env.timestamp filename) payload,
       Effect.sleep 5,
       Effect.trigger cfg.API_GATEWAY_URL (mkSourceKey env.timestamp filename)
         width height cfg.SOURCE_BUCKET cfg.TARGET_BUCKET] := by
  obtain ⟨ts, pf, tro⟩ := env
  simp only at hput
  subst hput
  cases tro with
  | transportFailure => rfl
  | response status =>
    simp only [upload_image, Bool.false_eq_true, if_false]
    split <;> rfl

/-- When the put succeeds, the store after the upload handler holds the
staged payload at the generated source key in the source bucket,
whatever the trigger outcome. -/
theorem upload_image_store (cfg : Config) (st : Store) (env : UploadEnv)
    (payload : List Nat) (filename : String) (width height : Int)
    (hput : env.putFails = false) :
    (upload_image cfg st env payload filename width height).2.2
      cfg.SOURCE_BUCKET (mkSourceKey env.timestamp filename) = some payload := by
  obtain ⟨ts, pf, tro⟩ := env
  simp only at hput
  subst hput
  cases tro with
  | transportFailure => simp [upload_image]
  | response status =>
    simp only [upload_image, Bool.false_eq_true, if_false]
    split <;> simp

/-- A character list without an occurrence of `resized-` passes through
Python `replace("resized-", "")` unchanged. -/
theorem removeResized_no_occ (xs : List Char) (h : hasResizedL xs = false) :
    removeResizedL xs = xs := by
  induction xs using removeResizedL.induct with
  | case1 rest ih =>
    rw [hasResizedL.eq_1] at h
    exact absurd h (by decide)
  | case2 c rest hne ih =>
    rw [removeResizedL.eq_2 c rest hne]
    rw [hasResizedL.eq_2 c rest hne] at h
    rw [ih h]
  | case3 => rfl

/-! ### Claim C1 -/

/-- C1, counterexample to the claim as stated: on a concrete successful
submit (put succeeds, trigger answers 200), the upload handler's trace
of external calls contains a fixed 5-second sleep — `submit` does
perform an internal fixed-delay sleep before returning, contrary to the
claim. -/
theorem C1_counterexample :
    Effect.sleep 5 ∈ (upload_image cfg0 emptyStore env200 [0] "a.png" 100 100).2.1 := by
  decide

/-- C1, amended: whenever the put succeeds, the upload handler performs
exactly the put, then a fixed 5-second sleep, then the trigger post —
the sleep sits between the upload and the trigger, and after the
trigger responds the handler returns with no further wait or
completion check. -/
theorem C1_submit_sleeps_five (cfg : Config) (st : Store) (env : UploadEnv)
    (payload : List Nat) (filename : String) (width height : Int)
    (hput : env.putFails = false) :
    (upload_image cfg st env payload filename width height).2.1 =
      [Effect.put cfg.SOURCE_BUCKET (mkSourceKey env.timestamp filename) payload,
       Effect.sleep 5,
       Effect.trigger cfg.API_GATEWAY_URL (mkSourceKey env.timestamp filename)
         width height cfg.SOURCE_BUCKET cfg.TARGET_BUCKET] :=
  upload_image_trace cfg st env payload filename width height hput

/-- C1, witness: the amended statement instantiated on a concrete
successful submit. -/
theorem C1_submit_sleeps_five_witness :
    env200.putFails = false ∧
    (upload_image cfg0 emptyStore env200 [0] "a.png" 100 100).2.1 =
      [Effect.put "src-bkt" "20240101120000.png" [0],
       Effect.sleep 5,
       Effect.trigger "https://api.example.com/resize" "20240101120000.png"
         100 100 "src-bkt" "tgt-bkt"] :=
  ⟨rfl, C1_submit_sleeps_five cfg0 emptyStore env200 [0] "a.png" 100 100 rfl⟩

/-! ### Claim C2 -/

/-- C2, the collision the claim rules out: two distinct uploads at the
same second-resolution timestamp with the same file extension are given
the very same source key, so the second put silently overwrites the
first — the code cannot keep source keys unique per upload. -/
theorem C2_source_key_collision :
    mkSourceKey "20240101120000" "a.png" = "20240101120000.png" ∧
    mkSourceKey "20240101120000" "b.png" = "20240101120000.png" ∧
    ("a.png" : String) ≠ "b.png" := by
  exact ⟨by decide, by decide, by decide⟩

/-! ### Claim C3 -/

/-- C3, counterexample to the claim as stated: for the valid source key
`20240101120000.resized-png` (generated by an upload of a file named,
e.g., `cat.resized-png`), the Python `replace` removes every occurrence
of `resized-`, so the round trip does not return the original key. -/
theorem C3_counterexample :
    derive_source_key (derive_target_key "20240101120000.resized-png") ≠
      "20240101120000.resized-png" ∧
    derive_source_key (derive_target_key "20240101120000.resized-png") =
      "20240101120000.png" := by
  exact ⟨by decide, by decide⟩

/-- C3, amended: the key naming scheme round-trips for every source key
that does not itself contain the substring `resized-`:
`derive_source_key (derive_target_key k) = k`. -/
theorem C3_roundtrip (k : String) (h : hasResizedL k.data = false) :
    derive_source_key (derive_target_key k) = k := by
  show String.mk (removeResizedL ("resized-" ++ k).data) = k
  have h1 : ("resized-" ++ k).data =
      'r' :: 'e' :: 's' :: 'i' :: 'z' :: 'e' :: 'd' :: '-' :: k.data := rfl
  rw [h1, removeResizedL.eq_1, removeResized_no_occ k.data h]

/-- C3, witness: the amended round trip instantiated on a concrete key. -/
theorem C3_roundtrip_witness :
    hasResizedL ("20240101120000.png" : String).data = false ∧
    derive_source_key (derive_target_key "20240101120000.png") = "20240101120000.png" :=
  ⟨by decide, C3_roundtrip "20240101120000.png" (by decide)⟩

/-! ### Claim C4 -/

/-- C4, counterexample to the claim as stated: a concrete submit with
width 0 is not rejected — its trace contains both the put and the
trigger call, and the handler answers with the normal 200 response. -/
theorem C4_counterexample :
    Effect.put "src-bkt" "20240101120000.png" [0] ∈
      (upload_image cfg0 emptyStore env200 [0] "a.png" 0 100).2.1 ∧
    Effect.trigger "https://api.example.com/resize" "20240101120000.png"
        0 100 "src-bkt" "tgt-bkt" ∈
      (upload_image cfg0 emptyStore env200 [0] "a.png" 0 100).2.1 ∧
    (upload_image cfg0 emptyStore env200 [0] "a.png" 0 100).1 =
      UploadResult.ok "https://src-bkt.s3.amazonaws.com/20240101120000.png"
        "https://tgt-bkt.s3.amazonaws.com/resized-20240101120000.png"
        "resized-20240101120000.png" := by
  exact ⟨by decide, by decide, by decide⟩

/-- C4, amended: the upload handler performs no validation of the
dimensions — for width 0 (and any height), whenever the put succeeds
both the put and the trigger call are made, exactly as for positive
dimensions. -/
theorem C4_no_validation (cfg : Config) (st : Store) (env : UploadEnv)
    (payload : List Nat) (filename : String) (height : Int)
    (hput : env.putFails = false) :
    Effect.put cfg.SOURCE_BUCKET (mkSourceKey env.timestamp filename) payload ∈
      (upload_image cfg st env payload filename 0 height).2.1 ∧
    Effect.trigger cfg.API_GATEWAY_URL (mkSourceKey env.timestamp filename)
        0 height cfg.SOURCE_BUCKET cfg.TARGET_BUCKET ∈
      (upload_image cfg st env payload filename 0 height).2.1 := by
  rw [upload_image_trace cfg st env payload filename 0 height hput]
  exact ⟨by simp, by simp⟩

/-- C4, witness: the amended statement instantiated on a concrete
submit with width 0. -/
theorem C4_no_validation_witness :
    env200.putFails = false ∧
    (Effect.put "src-bkt" "20240101120000.png" [0] ∈
      (upload_image cfg0 emptyStore env200 [0] "a.png" 0 100).2.1 ∧
    Effect.trigger "https://api.example.com/resize" "20240101120000.png"
        0 100 "src-bkt" "tgt-bkt" ∈
      (upload_image cfg0 emptyStore env200 [0] "a.png" 0 100).2.1) :=
  ⟨rfl, C4_no_validation cfg0 emptyStore env200 [0] "a.png" 100 rfl⟩

/-! ### Claim C5 -/

/-- C5, counterexample to the claim as stated: a concrete check whose
head on the target key fails with a permission `ClientError` (a
StoreError, not a not-found) still answers the bare exists-false, so the
transport or permission failure is not surfaced as an error distinct
from not-found. -/
theorem C5_counterexample :
    headDenied cfg0.TARGET_BUCKET "resized-20240101120000.png" =
      HeadOutcome.clientError HeadErr.accessDenied ∧
    check_resized_image cfg0 headDenied "resized-20240101120000.png" =
      CheckResult.no := by
  exact ⟨by decide, by decide⟩

/-- C5, amended: the check handler answers exists-false for every
`ClientError` raised by the head on the target key — the 404 not-found
and a permission denial alike — because the except clause catches the
whole `ClientError` class; no typed store error distinct from not-found
is surfaced. -/
theorem C5_clientError_hidden (cfg : Config) (hd : HeadFn) (resized_key : String)
    (e : HeadErr) (h : hd cfg.TARGET_BUCKET resized_key = HeadOutcome.clientError e) :
    check_resized_image cfg hd resized_key = CheckResult.no := by
  unfold check_resized_image
  rw [h]

/-- C5, witness: the amended statement instantiated on a head behavior
that denies every call with a permission error. -/
theorem C5_clientError_hidden_witness :
    headDenied cfg0.TARGET_BUCKET "resized-20240101120000.png" =
      HeadOutcome.clientError HeadErr.accessDenied ∧
    check_resized_image cfg0 headDenied "resized-20240101120000.png" =
      CheckResult.no :=
  ⟨rfl, C5_clientError_hidden cfg0 headDenied "resized-20240101120000.png"
    HeadErr.accessDenied rfl⟩

/-! ### Claim C6 -/

/-- C6, counterexample to the claim as stated: on a concrete submit
whose trigger post never reaches the endpoint, the handler terminates
with an unhandled exception (the `requests.post` call is outside every
try block), not with a typed trigger-error response. -/
theorem C6_counterexample :
    (upload_image cfg0 emptyStore envTransportFail [0] "a.png" 100 100).1 =
      UploadResult.unhandledFault := by
  decide

/-- C6, amended: whenever the put succeeds and the trigger call fails at
the transport level, the upload handler terminates with an unhandled
fault — the exception from `requests.post` escapes the handler, and no
typed trigger-error result is returned. -/
theorem C6_transport_unhandled (cfg : Config) (st : Store) (env : UploadEnv)
    (payload : List Nat) (filename : String) (width height : Int)
    (hput : env.putFails = false)
    (htr : env.trigger = TriggerOutcome.transportFailure) :
    (upload_image cfg st env payload filename width height).1 =
      UploadResult.unhandledFault := by
  obtain ⟨ts, pf, tro⟩ := env
  simp only at hput htr
  subst hput
  subst htr
  rfl

/-- C6, witness: the amended statement instantiated on a concrete
submit whose trigger post fails at the transport level. -/
theorem C6_transport_unhandled_witness :
    envTransportFail.putFails = false ∧
    envTransportFail.trigger = TriggerOutcome.transportFailure ∧
    (upload_image cfg0 emptyStore envTransportFail [0] "a.png" 100 100).1 =
      UploadResult.unhandledFault :=
  ⟨rfl, rfl, C6_transport_unhandled cfg0 emptyStore envTransportFail [0] "a.png"
    100 100 rfl rfl⟩

/-! ### Claim C7 -/

/-- C7: when the target object exists at the resized key and the staged
source object exists at the derived source key, the check handler
answers exists-true with the original size equal to the byte length of
the staged source payload and the resized size equal to the byte length
of the object at the resized key. -/
theorem C7_check_complete (cfg : Config) (st : Store) (resized_key : String)
    (sp tp : List Nat)
    (htgt : st cfg.TARGET_BUCKET resized_key = some tp)
    (hsrc : st cfg.SOURCE_BUCKET (derive_source_key resized_key) = some sp) :
    check_resized_image cfg (storeHead st) resized_key =
      CheckResult.yes sp.length tp.length := by
  simp only [check_resized_image, storeHead, htgt, hsrc]

/-- C7, witness: the statement instantiated on a concrete store holding
a 3-byte source object and a 1-byte resized object. -/
theorem C7_check_complete_witness :
    storeBoth cfg0.TARGET_BUCKET "resized-20240101120000.png" = some [7] ∧
    storeBoth cfg0.SOURCE_BUCKET (derive_source_key "resized-20240101120000.png") =
      some [0, 1, 2] ∧
    check_resized_image cfg0 (storeHead storeBoth) "resized-20240101120000.png" =
      CheckResult.yes 3 1 :=
  ⟨by decide, by decide,
    C7_check_complete cfg0 storeBoth "resized-20240101120000.png" [0, 1, 2] [7]
      (by decide) (by decide)⟩

/-! ### Claim C8 -/

/-- C8: while no object exists at the resized key in the target bucket
(and the store raises no transport fault), the check handler answers
exists-false and produces no error — the 404 from the head is caught by
the except clause and converted into the pending signal. -/
theorem C8_check_pending (cfg : Config) (st : Store) (resized_key : String)
    (htgt : st cfg.TARGET_BUCKET resized_key = none) :
    check_resized_image cfg (storeHead st) resized_key = CheckResult.no := by
  unfold check_resized_image storeHead
  rw [htgt]

/-- C8, witness: the statement instantiated on a concrete store where
the resized object has not yet appeared. -/
theorem C8_check_pending_witness :
    storeSrcOnly cfg0.TARGET_BUCKET "resized-20240101120000.png" = none ∧
    check_resized_image cfg0 (storeHead storeSrcOnly) "resized-20240101120000.png" =
      CheckResult.no :=
  ⟨by decide, C8_check_pending cfg0 storeSrcOnly "resized-20240101120000.png" (by decide)⟩

/-! ### Claim C9 -/

/-- C9: when the put succeeds and the trigger endpoint answers with a
status other than 200, the upload handler returns the trigger-failure
error response, and the staged source object is still present at the
generated source key in the source bucket — the upload is not rolled
back. -/
theorem C9_trigger_rejected_orphan (cfg : Config) (st : Store) (env : UploadEnv)
    (payload : List Nat) (filename : String) (width height : Int) (s : Nat)
    (hput : env.putFails = false)
    (htr : env.trigger = TriggerOutcome.response s) (hs : s ≠ 200) :
    (upload_image cfg st env payload filename width height).1 =
      UploadResult.resizeFailed ∧
    (upload_image cfg st env payload filename width height).2.2
      cfg.SOURCE_BUCKET (mkSourceKey env.timestamp filename) = some payload := by
  refine ⟨?_, upload_image_store cfg st env payload filename width height hput⟩
  obtain ⟨ts, pf, tro⟩ := env
  simp only at hput htr
  subst hput
  subst htr
  simp [upload_image, hs]

/-- C9, witness: the statement instantiated on a concrete submit whose
trigger is answered with HTTP 500. -/
theorem C9_trigger_rejected_orphan_witness :
    env500.putFails = false ∧
    env500.trigger = TriggerOutcome.response 500 ∧
    (500 : Nat) ≠ 200 ∧
    ((upload_image cfg0 emptyStore env500 [0] "a.png" 100 100).1 =
      UploadResult.resizeFailed ∧
    (upload_image cfg0 emptyStore env500 [0] "a.png" 100 100).2.2
      "src-bkt" "20240101120000.png" = some [0]) :=
  ⟨rfl, rfl, by decide,
    C9_trigger_rejected_orphan cfg0 emptyStore env500 [0] "a.png" 100 100 500
      rfl rfl (by decide)⟩

/-! ### Claim C10 -/

/-- C10: when the head on the resized key succeeds but the head on the
derived source key raises a `ClientError` (the source object is missing
or inaccessible), the check handler answers the bare exists-false even
though the target object exists — the except clause swallows the source
head failure. -/
theorem C10_source_head_fails (cfg : Config) (hd : HeadFn) (resized_key : String)
    (n : Nat) (e : HeadErr)
    (htgt : hd cfg.TARGET_BUCKET resized_key = HeadOutcome.ok n)
    (hsrc : hd cfg.SOURCE_BUCKET (derive_source_key resized_key) =
      HeadOutcome.clientError e) :
    check_resized_image cfg hd resized_key = CheckResult.no := by
  simp only [check_resized_image, htgt, hsrc]

/-- C10, witness: the statement instantiated on a head behavior where
the target object exists but every head on the source bucket is denied. -/
theorem C10_source_head_fails_witness :
    headTargetOnlySrcDenied cfg0.TARGET_BUCKET "resized-20240101120000.png" =
      HeadOutcome.ok 1 ∧
    headTargetOnlySrcDenied cfg0.SOURCE_BUCKET
      (derive_source_key "resized-20240101120000.png") =
      HeadOutcome.clientError HeadErr.accessDenied ∧
    check_resized_image cfg0 headTargetOnlySrcDenied "resized-20240101120000.png" =
      CheckResult.no :=
  ⟨by decide, by decide,
    C10_source_head_fails cfg0 headTargetOnlySrcDenied "resized-20240101120000.png"
      1 HeadErr.accessDenied (by decide) (by decide)⟩
